import Mathlib

/-!
Shallow embedding of `backends/conrod_vulkano/examples/support/mod.rs`.

The file under verification is a support helper for a vulkano-based GUI
example.  It owns a window surface, a logical device, a queue and a
swapchain, and it rebuilds the swapchain on window resize.  The external
graphics driver (vulkano) is modelled as an oracle record supplying the
results of every driver call (instance creation, device enumeration,
surface creation, capability queries, swapchain builds); the helper's own
control flow is translated directly from the Rust source.
-/

namespace ConrodVulkano

/-- Pixel formats, mirroring the `vulkano::format::Format` enumeration
(the Vulkan core format list) that the source matches on. -/
inductive Format where
  | R4G4UnormPack8
  | R4G4B4A4UnormPack16
  | B4G4R4A4UnormPack16
  | R5G6B5UnormPack16
  | B5G6R5UnormPack16
  | R5G5B5A1UnormPack16
  | B5G5R5A1UnormPack16
  | A1R5G5B5UnormPack16
  | R8Unorm
  | R8Snorm
  | R8Uscaled
  | R8Sscaled
  | R8Uint
  | R8Sint
  | R8Srgb
  | R8G8Unorm
  | R8G8Snorm
  | R8G8Uscaled
  | R8G8Sscaled
  | R8G8Uint
  | R8G8Sint
  | R8G8Srgb
  | R8G8B8Unorm
  | R8G8B8Snorm
  | R8G8B8Uscaled
  | R8G8B8Sscaled
  | R8G8B8Uint
  | R8G8B8Sint
  | R8G8B8Srgb
  | B8G8R8Unorm
  | B8G8R8Snorm
  | B8G8R8Uscaled
  | B8G8R8Sscaled
  | B8G8R8Uint
  | B8G8R8Sint
  | B8G8R8Srgb
  | R8G8B8A8Unorm
  | R8G8B8A8Snorm
  | R8G8B8A8Uscaled
  | R8G8B8A8Sscaled
  | R8G8B8A8Uint
  | R8G8B8A8Sint
  | R8G8B8A8Srgb
  | B8G8R8A8Unorm
  | B8G8R8A8Snorm
  | B8G8R8A8Uscaled
  | B8G8R8A8Sscaled
  | B8G8R8A8Uint
  | B8G8R8A8Sint
  | B8G8R8A8Srgb
  | A8B8G8R8UnormPack32
  | A8B8G8R8SnormPack32
  | A8B8G8R8UscaledPack32
  | A8B8G8R8SscaledPack32
  | A8B8G8R8UintPack32
  | A8B8G8R8SintPack32
  | A8B8G8R8SrgbPack32
  | A2R10G10B10UnormPack32
  | A2R10G10B10SnormPack32
  | A2R10G10B10UscaledPack32
  | A2R10G10B10SscaledPack32
  | A2R10G10B10UintPack32
  | A2R10G10B10SintPack32
  | A2B10G10R10UnormPack32
  | A2B10G10R10SnormPack32
  | A2B10G10R10UscaledPack32
  | A2B10G10R10SscaledPack32
  | A2B10G10R10UintPack32
  | A2B10G10R10SintPack32
  | R16Unorm
  | R16Snorm
  | R16Uscaled
  | R16Sscaled
  | R16Uint
  | R16Sint
  | R16Sfloat
  | R16G16Unorm
  | R16G16Snorm
  | R16G16Uscaled
  | R16G16Sscaled
  | R16G16Uint
  | R16G16Sint
  | R16G16Sfloat
  | R16G16B16Unorm
  | R16G16B16Snorm
  | R16G16B16Uscaled
  | R16G16B16Sscaled
  | R16G16B16Uint
  | R16G16B16Sint
  | R16G16B16Sfloat
  | R16G16B16A16Unorm
  | R16G16B16A16Snorm
  | R16G16B16A16Uscaled
  | R16G16B16A16Sscaled
  | R16G16B16A16Uint
  | R16G16B16A16Sint
  | R16G16B16A16Sfloat
  | R32Uint
  | R32Sint
  | R32Sfloat
  | R32G32Uint
  | R32G32Sint
  | R32G32Sfloat
  | R32G32B32Uint
  | R32G32B32Sint
  | R32G32B32Sfloat
  | R32G32B32A32Uint
  | R32G32B32A32Sint
  | R32G32B32A32Sfloat
  | R64Uint
  | R64Sint
  | R64Sfloat
  | R64G64Uint
  | R64G64Sint
  | R64G64Sfloat
  | R64G64B64Uint
  | R64G64B64Sint
  | R64G64B64Sfloat
  | R64G64B64A64Uint
  | R64G64B64A64Sint
  | R64G64B64A64Sfloat
  | B10G11R11UfloatPack32
  | E5B9G9R9UfloatPack32
  | D16Unorm
  | X8_D24UnormPack32
  | D32Sfloat
  | S8Uint
  | D16UnormS8Uint
  | D24UnormS8Uint
  | D32SfloatS8Uint
  | BC1_RGBUnormBlock
  | BC1_RGBSrgbBlock
  | BC1_RGBAUnormBlock
  | BC1_RGBASrgbBlock
  | BC2UnormBlock
  | BC2SrgbBlock
  | BC3UnormBlock
  | BC3SrgbBlock
  | BC4UnormBlock
  | BC4SnormBlock
  | BC5UnormBlock
  | BC5SnormBlock
  | BC6HUfloatBlock
  | BC6HSfloatBlock
  | BC7UnormBlock
  | BC7SrgbBlock
  | ETC2_R8G8B8UnormBlock
  | ETC2_R8G8B8SrgbBlock
  | ETC2_R8G8B8A1UnormBlock
  | ETC2_R8G8B8A1SrgbBlock
  | ETC2_R8G8B8A8UnormBlock
  | ETC2_R8G8B8A8SrgbBlock
  | EAC_R11UnormBlock
  | EAC_R11SnormBlock
  | EAC_R11G11UnormBlock
  | EAC_R11G11SnormBlock
  | ASTC_4x4UnormBlock
  | ASTC_4x4SrgbBlock
  | ASTC_5x4UnormBlock
  | ASTC_5x4SrgbBlock
  | ASTC_5x5UnormBlock
  | ASTC_5x5SrgbBlock
  | ASTC_6x5UnormBlock
  | ASTC_6x5SrgbBlock
  | ASTC_6x6UnormBlock
  | ASTC_6x6SrgbBlock
  | ASTC_8x5UnormBlock
  | ASTC_8x5SrgbBlock
  | ASTC_8x6UnormBlock
  | ASTC_8x6SrgbBlock
  | ASTC_8x8UnormBlock
  | ASTC_8x8SrgbBlock
  | ASTC_10x5UnormBlock
  | ASTC_10x5SrgbBlock
  | ASTC_10x6UnormBlock
  | ASTC_10x6SrgbBlock
  | ASTC_10x8UnormBlock
  | ASTC_10x8SrgbBlock
  | ASTC_10x10UnormBlock
  | ASTC_10x10SrgbBlock
  | ASTC_12x10UnormBlock
  | ASTC_12x10SrgbBlock
  | ASTC_12x12UnormBlock
  | ASTC_12x12SrgbBlock
  deriving DecidableEq, Repr

/-- Translation of `format_is_srgb` (mod.rs lines 161-195): a match listing
the sRGB-encoded formats, with a catch-all arm returning `false`. -/
def format_is_srgb (format : Format) : Bool :=
  match format with
  | .R8Srgb
  | .R8G8Srgb
  | .R8G8B8Srgb
  | .B8G8R8Srgb
  | .R8G8B8A8Srgb
  | .B8G8R8A8Srgb
  | .A8B8G8R8SrgbPack32
  | .BC1_RGBSrgbBlock
  | .BC1_RGBASrgbBlock
  | .BC2SrgbBlock
  | .BC3SrgbBlock
  | .BC7SrgbBlock
  | .ETC2_R8G8B8SrgbBlock
  | .ETC2_R8G8B8A1SrgbBlock
  | .ETC2_R8G8B8A8SrgbBlock
  | .ASTC_4x4SrgbBlock
  | .ASTC_5x4SrgbBlock
  | .ASTC_5x5SrgbBlock
  | .ASTC_6x5SrgbBlock
  | .ASTC_6x6SrgbBlock
  | .ASTC_8x5SrgbBlock
  | .ASTC_8x6SrgbBlock
  | .ASTC_8x8SrgbBlock
  | .ASTC_10x5SrgbBlock
  | .ASTC_10x6SrgbBlock
  | .ASTC_10x8SrgbBlock
  | .ASTC_10x10SrgbBlock
  | .ASTC_12x10SrgbBlock
  | .ASTC_12x12SrgbBlock => true
  | _ => false

/-- The documented sRGB set: exactly the formats listed in the `true` arm
of `format_is_srgb`. -/
def srgbFormats : List Format :=
  [.R8Srgb, .R8G8Srgb, .R8G8B8Srgb, .B8G8R8Srgb, .R8G8B8A8Srgb,
   .B8G8R8A8Srgb, .A8B8G8R8SrgbPack32,
   .BC1_RGBSrgbBlock, .BC1_RGBASrgbBlock, .BC2SrgbBlock, .BC3SrgbBlock,
   .BC7SrgbBlock,
   .ETC2_R8G8B8SrgbBlock, .ETC2_R8G8B8A1SrgbBlock, .ETC2_R8G8B8A8SrgbBlock,
   .ASTC_4x4SrgbBlock, .ASTC_5x4SrgbBlock, .ASTC_5x5SrgbBlock,
   .ASTC_6x5SrgbBlock, .ASTC_6x6SrgbBlock, .ASTC_8x5SrgbBlock,
   .ASTC_8x6SrgbBlock, .ASTC_8x8SrgbBlock, .ASTC_10x5SrgbBlock,
   .ASTC_10x6SrgbBlock, .ASTC_10x8SrgbBlock, .ASTC_10x10SrgbBlock,
   .ASTC_12x10SrgbBlock, .ASTC_12x12SrgbBlock]

example : format_is_srgb .R8Srgb = true := by decide
example : format_is_srgb .R8Unorm = false := by decide
example : format_is_srgb .R32Sfloat = false := by decide
example : ∀ f ∈ srgbFormats, format_is_srgb f = true := by decide

/-- Color spaces, mirroring `vulkano::swapchain::ColorSpace`. -/
inductive ColorSpace where
  | SrgbNonLinear
  | DisplayP3NonLinear
  | ExtendedSrgbLinear
  | ExtendedSrgbNonLinear
  | DisplayP3Linear
  | DciP3NonLinear
  | Bt709Linear
  | Bt709NonLinear
  | Bt2020Linear
  | Hdr10St2084
  | DolbyVision
  | Hdr10Hlg
  | AdobeRgbLinear
  | AdobeRgbNonLinear
  | PassThrough
  | DisplayNative
  deriving DecidableEq, Repr

/-- Alpha compositing modes, mirroring `vulkano::swapchain::CompositeAlpha`.
The order of constructors is the fixed iteration order of vulkano's
`SupportedCompositeAlpha::iter`. -/
inductive CompositeAlpha where
  | Opaque
  | PreMultiplied
  | PostMultiplied
  | Inherit
  deriving DecidableEq, Repr

/-- Swapchain build failures, mirroring
`vulkano::swapchain::SwapchainCreationError`.  The source compares the
error against `UnsupportedDimensions`; the other constructors are the
remaining (fatal) possibilities. -/
inductive SwapchainCreationError where
  | OomError
  | DeviceLost
  | SurfaceLost
  | SurfaceInUse
  | WindowInUse
  | UnsupportedDimensions
  | UnsupportedFormat
  | UnsupportedUsageFlags
  | UnsupportedCompositeAlpha
  | UnsupportedMinImagesCount
  | UnsupportedMaxImagesCount
  | UnsupportedPresentMode
  deriving DecidableEq, Repr

/-- Image usage flags, mirroring `vulkano::image::ImageUsage`. -/
structure ImageUsage where
  transfer_source : Bool
  transfer_destination : Bool
  sampled : Bool
  storage : Bool
  color_attachment : Bool
  depth_stencil_attachment : Bool
  transient_attachment : Bool
  input_attachment : Bool
  deriving DecidableEq, Repr

/-- `ImageUsage::color_attachment()`: only the color-attachment flag set. -/
def ImageUsage.color_attachment_only : ImageUsage :=
  { transfer_source := false
    transfer_destination := false
    sampled := false
    storage := false
    color_attachment := true
    depth_stencil_attachment := false
    transient_attachment := false
    input_attachment := false }

/-- Queue sharing modes, mirroring `vulkano::sync::SharingMode`.
`.sharing_mode(&queue)` on a single queue yields `Exclusive` for that
queue's family. -/
inductive SharingMode where
  | Exclusive (queue_family_id : Nat)
  | Concurrent (queue_family_ids : List Nat)
  deriving DecidableEq, Repr

/-- Surface capabilities as reported by `surface.capabilities(physical)`:
the fields the source reads, plus the image-count/extent bounds vulkano
validates swapchain builds against. -/
structure Capabilities where
  min_image_count : Nat
  max_image_count : Option Nat
  current_extent : Option (Nat × Nat)
  min_image_extent : Nat × Nat
  max_image_extent : Nat × Nat
  supported_formats : List (Format × ColorSpace)
  supported_composite_alpha : List CompositeAlpha
  deriving DecidableEq, Repr

/-- An opaque swapchain image handle (`Arc<SwapchainImage<_>>`). -/
structure SwapchainImage where
  id : Nat
  deriving DecidableEq, Repr

/-- The parameters a swapchain is built from; vulkano's built `Swapchain`
carries exactly these (and `recreate()` starts a builder from them). -/
structure BuildParams where
  num_images : Nat
  format : Format
  dimensions : Nat × Nat
  usage : ImageUsage
  sharing : SharingMode
  composite_alpha : CompositeAlpha
  deriving DecidableEq, Repr

/-- A platform window surface: an opaque handle plus the winit window's
current inner size in physical pixels. -/
structure Surface where
  id : Nat
  window_inner_size : Nat × Nat
  deriving DecidableEq, Repr

/-- An opaque logical-device handle. -/
structure Device where
  id : Nat
  deriving DecidableEq, Repr

/-- A device queue: the queue family it was created from and an opaque id. -/
structure Queue where
  family_id : Nat
  id : Nat
  deriving DecidableEq, Repr

/-- A queue family as enumerated on a physical device: whether it supports
graphics, and the result of `surface.is_supported(q)` for the run's one
surface (`Err` models a failed support query). -/
structure QueueFamily where
  id : Nat
  supports_graphics : Bool
  surface_support : Except Unit Bool

/-- A physical device: its enumerated queue families. -/
structure PhysicalDevice where
  queue_families : List QueueFamily

/-- `Result::unwrap_or`. -/
def unwrapOr {ε α : Type} (e : Except ε α) (d : α) : α :=
  match e with
  | .ok a => a
  | .error _ => d

/-- The driver/windowing oracle for one run of `Window::new`: the result of
every external call the constructor makes, in source order. -/
structure NewEnv where
  instance_result : Option Unit
  physical_devices : List PhysicalDevice
  surface_result : Option Surface
  device_result : Nat → Except Unit (Device × Nat)
  capabilities : Except Unit Capabilities
  build : BuildParams → Except SwapchainCreationError (List SwapchainImage)

/-- The `Window` struct (mod.rs lines 15-21). -/
structure Window where
  surface : Surface
  swapchain : BuildParams
  queue : Queue
  device : Device
  images : List SwapchainImage
  deriving DecidableEq, Repr

/-- Outcome of `Window::new`: either a constructed window, or the panic
(`expect`/`unwrap`) that aborted construction, in source order. -/
inductive NewResult where
  | ok (w : Window)
  | panicNoInstance
  | panicNoDevice
  | panicSurfaceBuild
  | panicNoQueueFamily
  | panicDeviceCreation
  | panicCapabilities
  | panicNoCompositeAlpha
  | panicNoSrgbFormat
  | panicSwapchainBuild (e : SwapchainCreationError)
  deriving DecidableEq, Repr

/-- The queue-family predicate of mod.rs lines 61-64:
`q.supports_graphics() && surface.is_supported(q).unwrap_or(false)`. -/
def supportsGraphicsAndPresent (q : QueueFamily) : Bool :=
  q.supports_graphics && unwrapOr q.surface_support false

/-- Format selection (mod.rs lines 89-95): filter the supported pairs for
an sRGB-encoded format paired with the non-linear sRGB color space, take
the formats, and pick the first. -/
def selectFormat (supported : List (Format × ColorSpace)) : Option Format :=
  ((supported.filter
      (fun p => format_is_srgb p.1 && p.2 == ColorSpace.SrgbNonLinear)).map
    Prod.fst).head?

/-- Translation of `Window::new` (mod.rs lines 24-118).  Each `expect` /
`unwrap` becomes a panic outcome; driver calls read the oracle.  The
logical-size round trip on lines 30-31 is the identity on the requested
`u32` width/height. -/
def Window.new (env : NewEnv) (width height : Nat) : NewResult :=
  match env.instance_result with
  | none => .panicNoInstance
  | some _ =>
    match env.physical_devices.head? with
    | none => .panicNoDevice
    | some physical =>
      match env.surface_result with
      | none => .panicSurfaceBuild
      | some surface =>
        match physical.queue_families.find? supportsGraphicsAndPresent with
        | none => .panicNoQueueFamily
        | some family =>
          match env.device_result family.id with
          | .error _ => .panicDeviceCreation
          | .ok (device, queue_id) =>
            match env.capabilities with
            | .error _ => .panicCapabilities
            | .ok caps =>
              match caps.supported_composite_alpha.head? with
              | none => .panicNoCompositeAlpha
              | some alpha =>
                match selectFormat caps.supported_formats with
                | none => .panicNoSrgbFormat
                | some format =>
                  match env.build
                      { num_images := caps.min_image_count
                        format := format
                        dimensions := caps.current_extent.getD (width, height)
                        usage := ImageUsage.color_attachment_only
                        sharing := SharingMode.Exclusive family.id
                        composite_alpha := alpha } with
                  | .error e => .panicSwapchainBuild e
                  | .ok images =>
                    .ok { surface := surface
                          swapchain :=
                            { num_images := caps.min_image_count
                              format := format
                              dimensions := caps.current_extent.getD (width, height)
                              usage := ImageUsage.color_attachment_only
                              sharing := SharingMode.Exclusive family.id
                              composite_alpha := alpha }
                          queue := { family_id := family.id, id := queue_id }
                          device := device
                          images := images }

/-- `Window::get_dimensions` (mod.rs lines 120-123): wraps the window's
inner size in `Some`. -/
def Window.get_dimensions (w : Window) : Option (Nat × Nat) :=
  some w.surface.window_inner_size

/-- One attempt of the resize loop: the result of the capability re-query
and the behavior of `recreate().dimensions(..).build()` for this attempt. -/
structure ResizeAttempt where
  caps_result : Except Unit Capabilities
  build : BuildParams → Except SwapchainCreationError (List SwapchainImage)

/-- Outcome of `Window::handle_resize`: the updated window, one of its two
panics, or `outOfAttempts` when the finite oracle trace is exhausted while
the code would still be retrying. -/
inductive ResizeResult where
  | ok (w : Window)
  | panicCapabilities
  | panicNoExtent
  | panicBuild (e : SwapchainCreationError)
  | outOfAttempts

/-- Translation of `Window::handle_resize` (mod.rs lines 125-144).  Each
recursive retry consumes the next attempt from the oracle trace.
`recreate().dimensions(nd)` builds from the stored swapchain's parameters
with only the dimensions replaced. -/
def Window.handle_resize (w : Window) : List ResizeAttempt → ResizeResult
  | [] => .outOfAttempts
  | attempt :: rest =>
    match attempt.caps_result with
    | .error _ => .panicCapabilities
    | .ok caps =>
      match caps.current_extent with
      | none => .panicNoExtent
      | some new_dimensions =>
        match attempt.build { w.swapchain with dimensions := new_dimensions } with
        | .ok new_images =>
          .ok { w with
                swapchain := { w.swapchain with dimensions := new_dimensions }
                images := new_images }
        | .error .UnsupportedDimensions => Window.handle_resize w rest
        | .error e => .panicBuild e

/-- A sequence of `handle_resize` calls, each with its own oracle trace;
stops at the first call that does not return normally. -/
def runResizes (w : Window) : List (List ResizeAttempt) → ResizeResult
  | [] => .ok w
  | tr :: trs =>
    match Window.handle_resize w tr with
    | .ok w2 => runResizes w2 trs
    | .panicCapabilities => .panicCapabilities
    | .panicNoExtent => .panicNoExtent
    | .panicBuild e => .panicBuild e
    | .outOfAttempts => .outOfAttempts

/-- The swapchain parameters vulkano validates against the queried surface
capabilities: image count within the min/max bounds and dimensions within
the extent bounds. -/
def swapchainFitsCaps (caps : Capabilities) (sc : BuildParams) : Bool :=
  decide (caps.min_image_count ≤ sc.num_images) &&
  (match caps.max_image_count with
   | some m => decide (sc.num_images ≤ m)
   | none => true) &&
  decide (caps.min_image_extent.1 ≤ sc.dimensions.1) &&
  decide (sc.dimensions.1 ≤ caps.max_image_extent.1) &&
  decide (caps.min_image_extent.2 ≤ sc.dimensions.2) &&
  decide (sc.dimensions.2 ≤ caps.max_image_extent.2)

/-- Soundness of a build oracle for a given capability report: vulkano only
returns a built swapchain whose parameters satisfy the capabilities. -/
def buildSound (build : BuildParams → Except SwapchainCreationError (List SwapchainImage))
    (caps : Capabilities) : Prop :=
  ∀ p imgs, build p = .ok imgs → swapchainFitsCaps caps p = true

/-- Soundness of one resize attempt: if its capability query succeeded,
its build oracle is sound for the reported capabilities. -/
def attemptSound (a : ResizeAttempt) : Prop :=
  ∀ caps, a.caps_result = .ok caps → buildSound a.build caps

/-! Concrete sample drivers, used to evaluate the theorems below on
closed inputs. -/

/-- A sample surface whose window is 800x600 physical pixels. -/
def surfaceW : Surface := { id := 0, window_inner_size := (800, 600) }

/-- A sample queue family supporting graphics and presentation. -/
def familyW : QueueFamily :=
  { id := 3, supports_graphics := true, surface_support := Except.ok true }

/-- Sample construction-time capabilities.  The first supported pair is
deliberately non-sRGB so that format selection has to skip it. -/
def capsW : Capabilities :=
  { min_image_count := 2
    max_image_count := some 8
    current_extent := some (800, 600)
    min_image_extent := (1, 1)
    max_image_extent := (4096, 4096)
    supported_formats :=
      [(Format.B8G8R8A8Unorm, ColorSpace.SrgbNonLinear),
       (Format.B8G8R8A8Srgb, ColorSpace.SrgbNonLinear)]
    supported_composite_alpha := [CompositeAlpha.Opaque] }

/-- A sample driver oracle for `Window.new` whose swapchain builds succeed
exactly when the requested parameters fit `capsW`. -/
def envW : NewEnv :=
  { instance_result := some ()
    physical_devices := [{ queue_families := [familyW] }]
    surface_result := some surfaceW
    device_result := fun fam => Except.ok ({ id := 1 }, fam)
    capabilities := Except.ok capsW
    build := fun p =>
      if swapchainFitsCaps capsW p then Except.ok [{ id := 0 }]
      else Except.error SwapchainCreationError.UnsupportedDimensions }

/-- The build parameters `Window.new envW 800 600` selects. -/
def paramsW : BuildParams :=
  { num_images := 2
    format := Format.B8G8R8A8Srgb
    dimensions := (800, 600)
    usage := ImageUsage.color_attachment_only
    sharing := SharingMode.Exclusive 3
    composite_alpha := CompositeAlpha.Opaque }

/-- The window `Window.new envW 800 600` constructs. -/
def w0W : Window :=
  { surface := surfaceW, swapchain := paramsW, queue := { family_id := 3, id := 3 },
    device := { id := 1 }, images := [{ id := 0 }] }

/-- Re-queried capabilities during a resize: the current extent changed. -/
def capsR : Capabilities := { capsW with current_extent := some (1024, 768) }

/-- A sound resize attempt: builds succeed exactly when the parameters fit
the re-queried capabilities `capsR`. -/
def resizeAttemptW : ResizeAttempt :=
  { caps_result := Except.ok capsR
    build := fun p =>
      if swapchainFitsCaps capsR p then Except.ok [{ id := 2 }]
      else Except.error SwapchainCreationError.UnsupportedDimensions }

/-- A resize attempt whose build always fails with the transient error. -/
def failAttemptW : ResizeAttempt :=
  { caps_result := Except.ok capsR
    build := fun _ => Except.error SwapchainCreationError.UnsupportedDimensions }

/-- A resize attempt whose build always succeeds. -/
def okAttemptW : ResizeAttempt :=
  { caps_result := Except.ok capsR
    build := fun _ => Except.ok [{ id := 5 }] }

/-- Capabilities reporting no defined current extent. -/
def capsNE : Capabilities := { capsW with current_extent := none }

/-- A resize attempt whose capability re-query reports no current extent. -/
def attemptNE : ResizeAttempt :=
  { caps_result := Except.ok capsNE
    build := fun _ => Except.error SwapchainCreationError.UnsupportedDimensions }

/-- A construction oracle whose surface reports no current extent. -/
def envNE : NewEnv :=
  { envW with
    capabilities := Except.ok capsNE
    build := fun p =>
      if swapchainFitsCaps capsNE p then Except.ok [{ id := 0 }]
      else Except.error SwapchainCreationError.UnsupportedDimensions }

/-- Capabilities offering no pair that is sRGB-encoded and paired with the
non-linear sRGB color space. -/
def capsNoSrgb : Capabilities :=
  { capsW with
    supported_formats :=
      [(Format.B8G8R8A8Unorm, ColorSpace.SrgbNonLinear),
       (Format.R8G8B8A8Srgb, ColorSpace.PassThrough)] }

/-- A construction oracle whose surface supports no sRGB format pair. -/
def envNoSrgb : NewEnv := { envW with capabilities := Except.ok capsNoSrgb }

/-- A queue family whose presentation-support query fails. -/
def badFamilyW : QueueFamily :=
  { id := 0, supports_graphics := true, surface_support := Except.error () }

/-- A construction oracle whose only queue family cannot present. -/
def envNoFamily : NewEnv :=
  { envW with physical_devices := [{ queue_families := [badFamilyW] }] }

/-- A one-call resize trace using the sound attempt `resizeAttemptW`. -/
def trsW : List (List ResizeAttempt) := [[resizeAttemptW]]

/-- The window after running `trsW` from `w0W`. -/
def wFinalW : Window :=
  { w0W with
    swapchain := { paramsW with dimensions := (1024, 768) }
    images := [{ id := 2 }] }

/-- The window after resizing `w0W` through `okAttemptW`. -/
def wC9 : Window :=
  { w0W with
    swapchain := { paramsW with dimensions := (1024, 768) }
    images := [{ id := 5 }] }

/-! Helper lemmas shared by the claim theorems. -/

theorem unwrapOr_false_eq_true {ε : Type} {e : Except ε Bool} :
    unwrapOr e false = true ↔ e = Except.ok true := by
  cases e with
  | error a => simp [unwrapOr]
  | ok b => cases b <;> simp [unwrapOr]

theorem supportsGraphicsAndPresent_iff (q : QueueFamily) :
    supportsGraphicsAndPresent q = true ↔
      (q.supports_graphics = true ∧ q.surface_support = Except.ok true) := by
  unfold supportsGraphicsAndPresent
  rw [Bool.and_eq_true, unwrapOr_false_eq_true]

theorem filter_head?_eq_find? {α : Type} (p : α → Bool) (l : List α) :
    (l.filter p).head? = l.find? p := by
  induction l with
  | nil => rfl
  | cons a t ih =>
    by_cases h : p a
    · simp [List.filter_cons, List.find?_cons, h, ih]
    · simp [List.filter_cons, List.find?_cons, h, ih]

theorem selectFormat_eq_find (supported : List (Format × ColorSpace)) :
    selectFormat supported =
      (supported.find?
          (fun p => format_is_srgb p.1 && p.2 == ColorSpace.SrgbNonLinear)).map
        Prod.fst := by
  unfold selectFormat
  rw [List.head?_map, filter_head?_eq_find?]

theorem selectFormat_some_mem {supported : List (Format × ColorSpace)} {f : Format}
    (h : selectFormat supported = some f) :
    format_is_srgb f = true ∧ (f, ColorSpace.SrgbNonLinear) ∈ supported := by
  rw [selectFormat_eq_find] at h
  obtain ⟨pr, hfind, hfst⟩ := Option.map_eq_some'.mp h
  have hpred := List.find?_some hfind
  have hmem := List.mem_of_find?_eq_some hfind
  obtain ⟨a, b⟩ := pr
  rw [Bool.and_eq_true] at hpred
  obtain ⟨h1, h2⟩ := hpred
  simp only at h1 h2 hfst
  rw [beq_iff_eq] at h2
  subst h2
  subst hfst
  exact ⟨h1, hmem⟩

theorem new_ok_spec {env : NewEnv} {width height : Nat} {win : Window}
    (h : Window.new env width height = NewResult.ok win) :
    ∃ physical family device queue_id caps alpha,
      env.physical_devices.head? = some physical ∧
      env.surface_result = some win.surface ∧
      physical.queue_families.find? supportsGraphicsAndPresent = some family ∧
      env.device_result family.id = Except.ok (device, queue_id) ∧
      env.capabilities = Except.ok caps ∧
      caps.supported_composite_alpha.head? = some alpha ∧
      selectFormat caps.supported_formats = some win.swapchain.format ∧
      env.build win.swapchain = Except.ok win.images ∧
      win.queue = { family_id := family.id, id := queue_id } ∧
      win.device = device ∧
      win.swapchain =
        { num_images := caps.min_image_count
          format := win.swapchain.format
          dimensions := caps.current_extent.getD (width, height)
          usage := ImageUsage.color_attachment_only
          sharing := SharingMode.Exclusive family.id
          composite_alpha := alpha } := by
  unfold Window.new at h
  split at h
  · exact NewResult.noConfusion h
  split at h
  · exact NewResult.noConfusion h
  rename_i physical hphys
  split at h
  · exact NewResult.noConfusion h
  rename_i surface hsurf
  split at h
  · exact NewResult.noConfusion h
  rename_i family hfam
  split at h
  · exact NewResult.noConfusion h
  rename_i device queue_id hdev
  split at h
  · exact NewResult.noConfusion h
  rename_i caps hcaps
  split at h
  · exact NewResult.noConfusion h
  rename_i alpha halpha
  split at h
  · exact NewResult.noConfusion h
  rename_i format hfmt
  split at h
  · exact NewResult.noConfusion h
  rename_i images hbuild
  injection h with h
  subst h
  exact ⟨physical, family, device, queue_id, caps, alpha, hphys, hsurf, hfam,
    hdev, hcaps, halpha, hfmt, hbuild, rfl, rfl, rfl⟩

theorem handle_resize_ok_spec {w : Window} {tr : List ResizeAttempt} {w2 : Window}
    (h : Window.handle_resize w tr = ResizeResult.ok w2) :
    w2.surface = w.surface ∧ w2.device = w.device ∧ w2.queue = w.queue ∧
    ∃ a ∈ tr, ∃ caps nd,
      a.caps_result = Except.ok caps ∧ caps.current_extent = some nd ∧
      a.build { w.swapchain with dimensions := nd } = Except.ok w2.images ∧
      w2.swapchain = { w.swapchain with dimensions := nd } := by
  induction tr with
  | nil => exact ResizeResult.noConfusion h
  | cons a rest ih =>
    rw [Window.handle_resize] at h
    split at h
    · exact ResizeResult.noConfusion h
    rename_i caps hcaps
    split at h
    · exact ResizeResult.noConfusion h
    rename_i nd hnd
    split at h
    · rename_i imgs hbuild
      injection h with h
      subst h
      exact ⟨rfl, rfl, rfl, a, List.mem_cons_self a rest, caps, nd, hcaps, hnd,
        hbuild, rfl⟩
    · obtain ⟨h1, h2, h3, b, hb, spec⟩ := ih h
      exact ⟨h1, h2, h3, b, List.mem_cons_of_mem a hb, spec⟩
    · exact ResizeResult.noConfusion h

theorem runResizes_spec (S : Capabilities → Prop)
    {fmts : List (Format × ColorSpace)} :
    ∀ {trs : List (List ResizeAttempt)} {w0 w : Window},
      (∀ tr ∈ trs, ∀ a ∈ tr, attemptSound a) →
      (∀ tr ∈ trs, ∀ a ∈ tr, ∀ caps, a.caps_result = Except.ok caps → S caps) →
      runResizes w0 trs = ResizeResult.ok w →
      format_is_srgb w0.swapchain.format = true →
      (w0.swapchain.format, ColorSpace.SrgbNonLinear) ∈ fmts →
      (∃ caps, S caps ∧ swapchainFitsCaps caps w0.swapchain = true) →
      format_is_srgb w.swapchain.format = true ∧
      (w.swapchain.format, ColorSpace.SrgbNonLinear) ∈ fmts ∧
      ∃ caps, S caps ∧ swapchainFitsCaps caps w.swapchain = true := by
  intro trs
  induction trs with
  | nil =>
    intro w0 w _ _ hrun hfmt hmem hfit
    rw [runResizes] at hrun
    injection hrun with hrun
    subst hrun
    exact ⟨hfmt, hmem, hfit⟩
  | cons tr trs ih =>
    intro w0 w hsound hS hrun hfmt hmem hfit
    rw [runResizes] at hrun
    split at hrun
    · rename_i w1 hres
      obtain ⟨_, _, _, a, ha, caps, nd, hcaps, hnd, hbuild, hsw⟩ :=
        handle_resize_ok_spec hres
      have hfmt1 : format_is_srgb w1.swapchain.format = true := by
        rw [hsw]; exact hfmt
      have hmem1 : (w1.swapchain.format, ColorSpace.SrgbNonLinear) ∈ fmts := by
        rw [hsw]; exact hmem
      have hfit1 : ∃ caps, S caps ∧ swapchainFitsCaps caps w1.swapchain = true := by
        refine ⟨caps, hS tr (List.mem_cons_self tr trs) a ha caps hcaps, ?_⟩
        rw [hsw]
        exact hsound tr (List.mem_cons_self tr trs) a ha caps hcaps _ _ hbuild
      exact ih (fun t ht => hsound t (List.mem_cons_of_mem tr ht))
        (fun t ht => hS t (List.mem_cons_of_mem tr ht)) hrun hfmt1 hmem1 hfit1
    · exact ResizeResult.noConfusion hrun
    · exact ResizeResult.noConfusion hrun
    · exact ResizeResult.noConfusion hrun
    · exact ResizeResult.noConfusion hrun

/-! The claim theorems. -/

/-- C6: `format_is_srgb` is a pure total function on the closed pixel-format
enumeration: every format value is mapped to exactly one boolean, with no
panic and no state. -/
theorem c6_format_is_srgb_total :
    ∀ f : Format, ∃! b : Bool, format_is_srgb f = b :=
  fun f => ⟨format_is_srgb f, rfl, fun _ hb => hb.symm⟩

/-- C7: `format_is_srgb` returns `true` exactly on the documented sRGB set
(including the 8-bit single-channel, 4-component 8-bit, block-compressed
and every ASTC block-size sRGB variant), and `false` outside it, in
particular on linear 8-bit and floating-point formats. -/
theorem c7_format_is_srgb_exact :
    (∀ f : Format, format_is_srgb f = true ↔ f ∈ srgbFormats) ∧
    format_is_srgb Format.R8Srgb = true ∧
    format_is_srgb Format.R8G8B8A8Srgb = true ∧
    format_is_srgb Format.BC7SrgbBlock = true ∧
    format_is_srgb Format.ASTC_12x12SrgbBlock = true ∧
    format_is_srgb Format.R8Unorm = false ∧
    format_is_srgb Format.R8G8B8A8Unorm = false ∧
    format_is_srgb Format.R16Sfloat = false ∧
    format_is_srgb Format.R32Sfloat = false := by
  refine ⟨fun f => ?_, rfl, rfl, rfl, rfl, rfl, rfl, rfl, rfl⟩
  cases f <;> decide

/-- C8: `get_dimensions` always succeeds on a live window: it returns
`Some` of the window's current physical pixel size and never `None`. -/
theorem c8_get_dimensions_total :
    ∀ w : Window,
      Window.get_dimensions w = some w.surface.window_inner_size ∧
      (Window.get_dimensions w).isSome = true :=
  fun _ => ⟨rfl, rfl⟩

/-- C1: after `new` and any sequence of `handle_resize` calls, the stored
swapchain's format is sRGB-encoded and paired with the non-linear sRGB
color space in the surface's supported-formats list, and its image count
and dimensions satisfy the surface capabilities reported at the time the
swapchain was built (construction-time, or the capability re-query of the
resize attempt that built it). -/
theorem c1_swapchain_invariant
    {env : NewEnv} {width height : Nat} {caps0 : Capabilities}
    (hcaps : env.capabilities = Except.ok caps0)
    (hbuild0 : buildSound env.build caps0)
    {trs : List (List ResizeAttempt)}
    (hsound : ∀ tr ∈ trs, ∀ a ∈ tr, attemptSound a)
    {w0 w : Window}
    (hnew : Window.new env width height = NewResult.ok w0)
    (hrun : runResizes w0 trs = ResizeResult.ok w) :
    format_is_srgb w.swapchain.format = true ∧
    (w.swapchain.format, ColorSpace.SrgbNonLinear) ∈ caps0.supported_formats ∧
    ∃ caps,
      (caps = caps0 ∨ ∃ tr ∈ trs, ∃ a ∈ tr, a.caps_result = Except.ok caps) ∧
      swapchainFitsCaps caps w.swapchain = true := by
  obtain ⟨_, _, _, _, caps, _, _, _, _, _, hcaps', _, hsel, hb, _⟩ :=
    new_ok_spec hnew
  rw [hcaps] at hcaps'
  injection hcaps' with e
  subst e
  obtain ⟨hfmt, hmem⟩ := selectFormat_some_mem hsel
  exact runResizes_spec
    (fun caps =>
      caps = caps0 ∨ ∃ tr ∈ trs, ∃ a ∈ tr, a.caps_result = Except.ok caps)
    hsound
    (fun tr htr a ha caps hc => Or.inr ⟨tr, htr, a, ha, hc⟩)
    hrun hfmt hmem ⟨caps0, Or.inl rfl, hbuild0 _ _ hb⟩

/-- C2: `handle_resize` retries (consuming the next attempt) whenever the
rebuild fails with the transient `UnsupportedDimensions` error; on the
first successful rebuild it replaces the stored swapchain and images
together and returns; any other rebuild error aborts (`panicBuild`). -/
theorem c2_resize_retry_semantics
    (w : Window) (pre : List ResizeAttempt) (a : ResizeAttempt)
    (post : List ResizeAttempt)
    (hpre : ∀ b ∈ pre, ∃ caps nd, b.caps_result = Except.ok caps ∧
        caps.current_extent = some nd ∧
        b.build { w.swapchain with dimensions := nd } =
          Except.error SwapchainCreationError.UnsupportedDimensions) :
    (∀ caps nd imgs, a.caps_result = Except.ok caps →
        caps.current_extent = some nd →
        a.build { w.swapchain with dimensions := nd } = Except.ok imgs →
        Window.handle_resize w (pre ++ a :: post) =
          ResizeResult.ok
            { w with
              swapchain := { w.swapchain with dimensions := nd }
              images := imgs }) ∧
    (∀ caps nd e, a.caps_result = Except.ok caps →
        caps.current_extent = some nd →
        a.build { w.swapchain with dimensions := nd } = Except.error e →
        e ≠ SwapchainCreationError.UnsupportedDimensions →
        Window.handle_resize w (pre ++ a :: post) = ResizeResult.panicBuild e) := by
  induction pre with
  | nil =>
    constructor
    · intro caps nd imgs hc he hb
      simp only [List.nil_append, Window.handle_resize, hc, he, hb]
    · intro caps nd e hc he hb hne
      cases e <;> try exact absurd rfl hne
      all_goals simp only [List.nil_append, Window.handle_resize, hc, he, hb]
  | cons b pre ih =>
    obtain ⟨caps, nd, hc, he, hb⟩ := hpre b (List.mem_cons_self b pre)
    have hstep : Window.handle_resize w ((b :: pre) ++ a :: post) =
        Window.handle_resize w (pre ++ a :: post) := by
      simp only [List.cons_append, Window.handle_resize, hc, he, hb]
      try rfl
    have ih2 := ih (fun c hcmem => hpre c (List.mem_cons_of_mem b hcmem))
    constructor
    · intro caps2 nd2 imgs h1 h2 h3
      rw [hstep]
      exact ih2.1 caps2 nd2 imgs h1 h2 h3
    · intro caps2 nd2 e h1 h2 h3 h4
      rw [hstep]
      exact ih2.2 caps2 nd2 e h1 h2 h3 h4

/-- C3: construction selects the first supported pair whose format is
sRGB-encoded and whose color space is non-linear sRGB (the selection is
the first match of that predicate); the constructed window's format is
that selection; and when no pair satisfies both conditions, construction
aborts with the no-sRGB-format panic. -/
theorem c3_format_selection
    {env : NewEnv} {width height : Nat} {physical : PhysicalDevice}
    {surface : Surface} {family : QueueFamily} {device : Device}
    {queue_id : Nat} {caps : Capabilities} {alpha : CompositeAlpha}
    (hinst : env.instance_result = some ())
    (hphys : env.physical_devices.head? = some physical)
    (hsurf : env.surface_result = some surface)
    (hfam : physical.queue_families.find? supportsGraphicsAndPresent = some family)
    (hdev : env.device_result family.id = Except.ok (device, queue_id))
    (hcaps : env.capabilities = Except.ok caps)
    (halpha : caps.supported_composite_alpha.head? = some alpha) :
    (∀ supported : List (Format × ColorSpace),
      selectFormat supported =
        (supported.find?
            (fun p => format_is_srgb p.1 && p.2 == ColorSpace.SrgbNonLinear)).map
          Prod.fst) ∧
    (∀ win : Window, Window.new env width height = NewResult.ok win →
      selectFormat caps.supported_formats = some win.swapchain.format) ∧
    ((∀ p ∈ caps.supported_formats,
        ¬(format_is_srgb p.1 = true ∧ p.2 = ColorSpace.SrgbNonLinear)) →
      Window.new env width height = NewResult.panicNoSrgbFormat) := by
  refine ⟨selectFormat_eq_find, ?_, ?_⟩
  · intro win hwin
    obtain ⟨_, _, _, _, caps2, _, _, _, _, _, hcaps2, _, hsel, _⟩ :=
      new_ok_spec hwin
    rw [hcaps] at hcaps2
    injection hcaps2 with e
    subst e
    exact hsel
  · intro hnone
    have hfind : caps.supported_formats.find?
        (fun p => format_is_srgb p.1 && p.2 == ColorSpace.SrgbNonLinear) = none := by
      rw [List.find?_eq_none]
      intro p hp
      have := hnone p hp
      intro hcontra
      rw [Bool.and_eq_true, beq_iff_eq] at hcontra
      exact this hcontra
    have hsel : selectFormat caps.supported_formats = none := by
      rw [selectFormat_eq_find, hfind]
      rfl
    simp only [Window.new, hinst, hphys, hsurf, hfam, hdev, hcaps, halpha, hsel]

/-- C4: the swapchain built by `new` uses exactly the minimum image count
from the queried capabilities, the selected sRGB format, the surface's
current extent with the requested width/height as fallback, the fixed
color-attachment usage, the created queue's exclusive sharing mode, and
the first supported composite-alpha mode; a build error aborts with the
swapchain-build panic. -/
theorem c4_swapchain_build_parameters
    {env : NewEnv} {width height : Nat} {physical : PhysicalDevice}
    {surface : Surface} {family : QueueFamily} {device : Device}
    {queue_id : Nat} {caps : Capabilities} {alpha : CompositeAlpha} {fmt : Format}
    (hinst : env.instance_result = some ())
    (hphys : env.physical_devices.head? = some physical)
    (hsurf : env.surface_result = some surface)
    (hfam : physical.queue_families.find? supportsGraphicsAndPresent = some family)
    (hdev : env.device_result family.id = Except.ok (device, queue_id))
    (hcaps : env.capabilities = Except.ok caps)
    (halpha : caps.supported_composite_alpha.head? = some alpha)
    (hfmt : selectFormat caps.supported_formats = some fmt) :
    (∀ imgs,
      env.build
          { num_images := caps.min_image_count
            format := fmt
            dimensions := caps.current_extent.getD (width, height)
            usage := ImageUsage.color_attachment_only
            sharing := SharingMode.Exclusive family.id
            composite_alpha := alpha } = Except.ok imgs →
      Window.new env width height =
        NewResult.ok
          { surface := surface
            swapchain :=
              { num_images := caps.min_image_count
                format := fmt
                dimensions := caps.current_extent.getD (width, height)
                usage := ImageUsage.color_attachment_only
                sharing := SharingMode.Exclusive family.id
                composite_alpha := alpha }
            queue := { family_id := family.id, id := queue_id }
            device := device
            images := imgs }) ∧
    (∀ e,
      env.build
          { num_images := caps.min_image_count
            format := fmt
            dimensions := caps.current_extent.getD (width, height)
            usage := ImageUsage.color_attachment_only
            sharing := SharingMode.Exclusive family.id
            composite_alpha := alpha } = Except.error e →
      Window.new env width height = NewResult.panicSwapchainBuild e) := by
  constructor
  · intro imgs hb
    simp only [Window.new, hinst, hphys, hsurf, hfam, hdev, hcaps, halpha,
      hfmt, hb]
  · intro e hb
    simp only [Window.new, hinst, hphys, hsurf, hfam, hdev, hcaps, halpha,
      hfmt, hb]

/-- C5: the queue family chosen for device creation supports graphics
submission and presentation to the surface (the constructed window's queue
comes from that family), and when no enumerated family satisfies both,
construction aborts with the no-queue-family panic. -/
theorem c5_queue_family_selection
    {env : NewEnv} {width height : Nat} {physical : PhysicalDevice}
    {surface : Surface}
    (hinst : env.instance_result = some ())
    (hphys : env.physical_devices.head? = some physical)
    (hsurf : env.surface_result = some surface) :
    (∀ family,
      physical.queue_families.find? supportsGraphicsAndPresent = some family →
      family ∈ physical.queue_families ∧ family.supports_graphics = true ∧
      family.surface_support = Except.ok true) ∧
    (∀ win, Window.new env width height = NewResult.ok win →
      ∃ family,
        physical.queue_families.find? supportsGraphicsAndPresent = some family ∧
        family ∈ physical.queue_families ∧ family.supports_graphics = true ∧
        family.surface_support = Except.ok true ∧
        win.queue.family_id = family.id) ∧
    ((∀ q ∈ physical.queue_families,
        ¬(q.supports_graphics = true ∧ q.surface_support = Except.ok true)) →
      Window.new env width height = NewResult.panicNoQueueFamily) := by
  have hchar : ∀ family,
      physical.queue_families.find? supportsGraphicsAndPresent = some family →
      family ∈ physical.queue_families ∧ family.supports_graphics = true ∧
      family.surface_support = Except.ok true := by
    intro family hfind
    have hpred := List.find?_some hfind
    have hmem := List.mem_of_find?_eq_some hfind
    obtain ⟨h1, h2⟩ := (supportsGraphicsAndPresent_iff family).mp hpred
    exact ⟨hmem, h1, h2⟩
  refine ⟨hchar, ?_, ?_⟩
  · intro win hwin
    obtain ⟨physical2, family, _, queue_id, _, _, hphys2, _, hfam, _, _, _, _,
      _, hqueue, _⟩ := new_ok_spec hwin
    rw [hphys] at hphys2
    injection hphys2 with e
    subst e
    obtain ⟨hmem, h1, h2⟩ := hchar family hfam
    refine ⟨family, hfam, hmem, h1, h2, ?_⟩
    rw [hqueue]
  · intro hnone
    have hfind : physical.queue_families.find? supportsGraphicsAndPresent
        = none := by
      rw [List.find?_eq_none]
      intro q hq
      intro hcontra
      exact hnone q hq ((supportsGraphicsAndPresent_iff q).mp hcontra)
    simp only [Window.new, hinst, hphys, hsurf, hfind]

/-- C9: a successful `handle_resize` leaves the surface, device and queue
fields unchanged, and replaces the swapchain and image sequence together:
both come from the same successful rebuild attempt. -/
theorem c9_resize_replaces_only_swapchain_and_images
    {w : Window} {tr : List ResizeAttempt} {w2 : Window}
    (h : Window.handle_resize w tr = ResizeResult.ok w2) :
    w2.surface = w.surface ∧ w2.device = w.device ∧ w2.queue = w.queue ∧
    ∃ a ∈ tr, ∃ caps nd,
      a.caps_result = Except.ok caps ∧ caps.current_extent = some nd ∧
      a.build { w.swapchain with dimensions := nd } = Except.ok w2.images ∧
      w2.swapchain = { w.swapchain with dimensions := nd } :=
  handle_resize_ok_spec h

/-- C10: `handle_resize` panics when the re-queried capabilities report no
defined current extent (it unwraps it with no fallback), whereas
construction falls back to the requested width/height in that situation. -/
theorem c10_resize_no_extent_panics :
    (∀ (w : Window) (a : ResizeAttempt) (rest : List ResizeAttempt)
        (caps : Capabilities),
      a.caps_result = Except.ok caps → caps.current_extent = none →
      Window.handle_resize w (a :: rest) = ResizeResult.panicNoExtent) ∧
    (∀ (env : NewEnv) (width height : Nat) (caps : Capabilities) (win : Window),
      env.capabilities = Except.ok caps → caps.current_extent = none →
      Window.new env width height = NewResult.ok win →
      win.swapchain.dimensions = (width, height)) := by
  constructor
  · intro w a rest caps hc he
    simp only [Window.handle_resize, hc, he]
  · intro env width height caps win hc he hnew
    obtain ⟨_, _, _, _, caps2, _, _, _, _, _, hcaps2, _, _, _, _, _, hsw⟩ :=
      new_ok_spec hnew
    rw [hc] at hcaps2
    injection hcaps2 with e
    subst e
    rw [hsw]
    simp [he]

/-! Witnesses: the claim theorems evaluated on the concrete sample
drivers. -/

theorem buildSoundW : buildSound envW.build capsW := by
  intro p imgs hb
  simp only [envW] at hb
  by_cases hfit : swapchainFitsCaps capsW p = true
  · exact hfit
  · rw [if_neg hfit] at hb
    exact Except.noConfusion hb

theorem attemptsSoundW : ∀ tr ∈ trsW, ∀ a ∈ tr, attemptSound a := by
  intro tr htr a ha
  simp only [trsW, List.mem_singleton] at htr
  subst htr
  simp only [List.mem_singleton] at ha
  subst ha
  intro caps hc
  simp only [resizeAttemptW] at hc
  injection hc with hc
  subst hc
  intro p imgs hb
  simp only [resizeAttemptW] at hb
  by_cases hfit : swapchainFitsCaps capsR p = true
  · exact hfit
  · rw [if_neg hfit] at hb
    exact Except.noConfusion hb

/-- C1 witness: the invariant holds for the window built by `envW` after
one resize through `resizeAttemptW`. -/
theorem c1_swapchain_invariant_witness :
    format_is_srgb wFinalW.swapchain.format = true ∧
    (wFinalW.swapchain.format, ColorSpace.SrgbNonLinear) ∈
      capsW.supported_formats ∧
    ∃ caps,
      (caps = capsW ∨ ∃ tr ∈ trsW, ∃ a ∈ tr, a.caps_result = Except.ok caps) ∧
      swapchainFitsCaps caps wFinalW.swapchain = true :=
  @c1_swapchain_invariant envW 800 600 capsW rfl buildSoundW trsW
    attemptsSoundW w0W wFinalW rfl rfl

/-- C2 witness: with one transiently failing attempt followed by a
successful one, `handle_resize` retries once and then installs the new
swapchain and images. -/
theorem c2_resize_retry_semantics_witness :
    Window.handle_resize w0W ([failAttemptW] ++ okAttemptW :: []) =
      ResizeResult.ok
        { w0W with
          swapchain := { w0W.swapchain with dimensions := (1024, 768) }
          images := [{ id := 5 }] } :=
  (c2_resize_retry_semantics w0W [failAttemptW] okAttemptW []
      (by
        intro b hb
        simp only [List.mem_singleton] at hb
        subst hb
        exact ⟨capsR, (1024, 768), rfl, rfl, rfl⟩)).1
    capsR (1024, 768) [{ id := 5 }] rfl rfl rfl

/-- C3 witness: on a surface offering no sRGB/non-linear-sRGB pair,
construction aborts with the no-sRGB-format panic. -/
theorem c3_format_selection_witness :
    Window.new envNoSrgb 800 600 = NewResult.panicNoSrgbFormat :=
  (@c3_format_selection envNoSrgb 800 600 { queue_families := [familyW] }
      surfaceW familyW { id := 1 } 3 capsNoSrgb CompositeAlpha.Opaque
      rfl rfl rfl rfl rfl rfl rfl).2.2 (by decide)

/-- C4 witness: the swapchain built from `envW` carries exactly the
parameters the claim lists. -/
theorem c4_swapchain_build_parameters_witness :
    Window.new envW 800 600 =
      NewResult.ok
        { surface := surfaceW
          swapchain :=
            { num_images := capsW.min_image_count
              format := Format.B8G8R8A8Srgb
              dimensions := capsW.current_extent.getD (800, 600)
              usage := ImageUsage.color_attachment_only
              sharing := SharingMode.Exclusive familyW.id
              composite_alpha := CompositeAlpha.Opaque }
          queue := { family_id := familyW.id, id := 3 }
          device := { id := 1 }
          images := [{ id := 0 }] } :=
  (@c4_swapchain_build_parameters envW 800 600 { queue_families := [familyW] }
      surfaceW familyW { id := 1 } 3 capsW CompositeAlpha.Opaque
      Format.B8G8R8A8Srgb rfl rfl rfl rfl rfl rfl rfl rfl).1
    [{ id := 0 }] rfl

/-- C5 witness: when the only queue family's presentation query fails,
construction aborts with the no-queue-family panic. -/
theorem c5_queue_family_selection_witness :
    Window.new envNoFamily 800 600 = NewResult.panicNoQueueFamily :=
  (@c5_queue_family_selection envNoFamily 800 600
      { queue_families := [badFamilyW] } surfaceW rfl rfl rfl).2.2
    (by
      intro q hq
      have hq2 : q = badFamilyW := List.mem_singleton.mp hq
      subst hq2
      rintro ⟨h1, h2⟩
      exact Except.noConfusion h2)

/-- C9 witness: resizing `w0W` through `okAttemptW` keeps the surface,
device and queue and replaces the swapchain and images together. -/
theorem c9_resize_replaces_only_swapchain_and_images_witness :
    wC9.surface = w0W.surface ∧ wC9.device = w0W.device ∧
    wC9.queue = w0W.queue ∧
    ∃ a ∈ [okAttemptW], ∃ caps nd,
      a.caps_result = Except.ok caps ∧ caps.current_extent = some nd ∧
      a.build { w0W.swapchain with dimensions := nd } = Except.ok wC9.images ∧
      wC9.swapchain = { w0W.swapchain with dimensions := nd } :=
  c9_resize_replaces_only_swapchain_and_images rfl

/-- C10 witness: `handle_resize` panics on `attemptNE` (whose re-query
reports no current extent), while construction from `envNE` (same
situation) succeeds with the requested 800x600 fallback dimensions. -/
theorem c10_resize_no_extent_panics_witness :
    Window.handle_resize w0W [attemptNE] = ResizeResult.panicNoExtent ∧
    w0W.swapchain.dimensions = (800, 600) :=
  ⟨c10_resize_no_extent_panics.1 w0W attemptNE [] capsNE rfl rfl,
   c10_resize_no_extent_panics.2 envNE 800 600 capsNE w0W rfl rfl rfl⟩

end ConrodVulkano
